import Mathlib

/-!
Shallow embedding of `src/apps/store/orchidjs/shared/js/page_controller.js`
(the OrchidJS `PageController` object): panel data model, class-list
operations, the `togglePanelVisibility` transition routine, Escape-key
handling, the scroll-progress computations and the `cubicBezier` easing
routine.  Machine numbers of the scroll/easing math are modelled as exact
rationals; DOM elements are modelled as explicit records, the global
`window` object as an association list of bootstrap objects.
-/

namespace PageController

/-! ### JS string comparison (lexicographic on code units) -/

def jsCharListLe : List Char → List Char → Bool
  | [], _ => true
  | _ :: _, [] => false
  | a :: as, b :: bs =>
    if a.toNat < b.toNat then true
    else if b.toNat < a.toNat then false
    else jsCharListLe as bs

/-- JS `a <= b` on strings: lexicographic comparison of code units. -/
def jsStrLe (a b : String) : Bool := jsCharListLe a.data b.data

/-! ### classList operations (a DOMTokenList holds no duplicates) -/

def addClass (c : String) (cs : List String) : List String :=
  if c ∈ cs then cs else cs ++ [c]

def removeClass (c : String) (cs : List String) : List String :=
  cs.filter (fun x => x ≠ c)

def toggleClass (c : String) (cs : List String) : List String :=
  if c ∈ cs then removeClass c cs else addClass c cs

/-- JS `classList.toggle(c, force)`. -/
def toggleClassForce (c : String) (force : Bool) (cs : List String) : List String :=
  if force then addClass c cs else removeClass c cs

/-- JS `code.split('.')` at character level (`String.splitOn` does not
reduce inside the kernel): splits on `'.'`, keeping empty segments, like
`String.prototype.split`. -/
def splitDotAux : List Char → List (List Char)
  | [] => [[]]
  | c :: rest =>
    let r := splitDotAux rest
    if c = '.' then [] :: r
    else
      match r with
      | [] => [[c]]
      | h :: t => (c :: h) :: t

def jsSplitDot (s : String) : List String :=
  (splitDotAux s.data).map String.mk

/-! ### Panels, buttons and the global window object -/

/-- A DOM element with `role="panel"`: its `id`, `dataset.index` (a string:
`panel.dataset.index = index` stores the number as a string),
its class list and the two optional dataset attributes read by
`togglePanelVisibility`. -/
structure Panel where
  id : String
  index : String
  classes : List String
  previousPageId : Option String
  pageObject : Option String
deriving DecidableEq

/-- A `[data-page-id]` activation button. -/
structure Button where
  pageId : String
  classes : List String
deriving DecidableEq

/-- A controller object with the `init/show/hide/isLoaded` capability set.
The three `...Throws` flags say whether the corresponding method throws
when invoked. -/
structure Ctrl where
  isLoaded : Bool
  initThrows : Bool
  showThrows : Bool
  hideThrows : Bool
deriving DecidableEq

/-- A top-level `window` binding: the object itself (for bare paths such as
`"Bootstrap"`) together with its named child objects (for dotted paths such
as `"Bootstrap.Object"`). -/
structure Bootstrap where
  self : Ctrl
  children : List (String × Ctrl)
deriving DecidableEq

/-- The global `window` namespace as an association list. -/
structure Window where
  entries : List (String × Bootstrap)
deriving DecidableEq

def winGet (w : Window) (n : String) : Option Bootstrap :=
  (w.entries.find? (fun e => e.fst == n)).map (fun e => e.snd)

def childGet (bs : Bootstrap) (n : String) : Option Ctrl :=
  (bs.children.find? (fun e => e.fst == n)).map (fun e => e.snd)

/-- `window[b][o].isLoaded = true` for a dotted path. -/
def setLoadedChild (w : Window) (b o : String) : Window :=
  ⟨w.entries.map (fun e =>
    if e.fst == b then
      (e.fst, ⟨e.snd.self,
        e.snd.children.map (fun c =>
          if c.fst == o then (c.fst, { c.snd with isLoaded := true }) else c)⟩)
    else e)⟩

/-- `window[b].isLoaded = true` for a bare path. -/
def setLoadedSelf (w : Window) (b : String) : Window :=
  ⟨w.entries.map (fun e =>
    if e.fst == b then (e.fst, ⟨{ e.snd.self with isLoaded := true }, e.snd.children⟩)
    else e)⟩

/-! ### Lifecycle dispatch -/

/-- An observed controller lifecycle method invocation. -/
inductive LifeEvent where
  | hideCall (b : String) (o : Option String)
  | initCall (b : String) (o : Option String)
  | showCall (b : String) (o : Option String)
deriving DecidableEq

def LifeEvent.isInit : LifeEvent → Bool
  | .initCall _ _ => true
  | _ => false

def LifeEvent.isShow : LifeEvent → Bool
  | .showCall _ _ => true
  | _ => false

/-- The source-panel `hide` block of `togglePanelVisibility`.  Note the
guard is `selectedPageObject in window`: it looks the SECOND path component
up at top level of `window`.  For a dotless path that component is
`undefined` and `'undefined' in window` is TRUE (the global object owns an
`undefined` property), so the guard passes and the bare
`window[bootstrap].hide()` is attempted.  The whole call is inside
`try { ... } catch`, so a missing object or a throwing `hide` produces no
observable effect beyond the call itself. -/
def runHide (w : Window) (pageCode : Option String) : List LifeEvent :=
  match pageCode with
  | none => []
  | some code =>
    if code = "" then []
    else
      let b := (jsSplitDot code).headD ""
      match (jsSplitDot code)[1]? with
      | none =>
        match winGet w b with
        | some _ => [LifeEvent.hideCall b none]
        | none => []
      | some o =>
        if (winGet w o).isSome then
          if o ≠ "" then
            match winGet w b with
            | none => []
            | some bs =>
              match childGet bs o with
              | some _ => [LifeEvent.hideCall b (some o)]
              | none => []
          else
            match winGet w b with
            | some _ => [LifeEvent.hideCall b none]
            | none => []
        else []

/-- Bare-path target branch: `window[b]` exists; `init` it if not loaded
(NOT inside a try/catch: a throwing `init` propagates), then `show` inside
`try`. -/
def runTargetBare (w : Window) (b : String) (bs : Bootstrap) :
    Window × List LifeEvent × Bool :=
  if !bs.self.isLoaded then
    if bs.self.initThrows then (w, [LifeEvent.initCall b none], true)
    else (setLoadedSelf w b, [LifeEvent.initCall b none, LifeEvent.showCall b none], false)
  else (w, [LifeEvent.showCall b none], false)

/-- The target-panel block of `togglePanelVisibility`: guarded by
`targetPageBootstrap in window`; for a dotted path, `init` runs when
`window[b][o]` exists and is not `isLoaded` (outside any try/catch, so a
throwing `init` propagates — third component `true`), then `isLoaded` is
set and `window[b][o].show()` runs inside `try`. -/
def runTarget (w : Window) (pageCode : Option String) :
    Window × List LifeEvent × Bool :=
  match pageCode with
  | none => (w, [], false)
  | some code =>
    if code = "" then (w, [], false)
    else
      let b := (jsSplitDot code).headD ""
      match winGet w b with
      | none => (w, [], false)
      | some bs =>
        match (jsSplitDot code)[1]? with
        | some o =>
          if o ≠ "" then
            match childGet bs o with
            | some c =>
              if !c.isLoaded then
                if c.initThrows then (w, [LifeEvent.initCall b (some o)], true)
                else
                  let w1 := setLoadedChild w b o
                  match winGet w1 b with
                  | none => (w1, [LifeEvent.initCall b (some o)], false)
                  | some bs1 =>
                    match childGet bs1 o with
                    | some _ =>
                      (w1, [LifeEvent.initCall b (some o), LifeEvent.showCall b (some o)], false)
                    | none => (w1, [LifeEvent.initCall b (some o)], false)
              else (w, [LifeEvent.showCall b (some o)], false)
            | none => (w, [], false)
          else runTargetBare w b bs
        | none => runTargetBare w b bs

/-! ### The controller state and the transition routine -/

/-- Mutable state of the `PageController` singleton together with the DOM
pieces it reads and writes: the panel elements, the `window` namespace, the
history stack of pushed `panel` query-parameter values, and the activation
buttons. -/
structure PCState where
  previousPanelId : String
  currentPanelId : String
  isKeyDown : Bool
  panels : List Panel
  win : Window
  history : List String
  buttons : List Button
deriving DecidableEq

/-- `document.getElementById` restricted to panels: first element with the
given id. -/
def getById (ps : List Panel) (i : String) : Option Panel :=
  ps.find? (fun p => p.id == i)

/-- Apply `f` to the first panel whose id is `i` (DOM elements are updated
in place through their unique reference). -/
def updateFirst (ps : List Panel) (i : String) (f : Panel → Panel) : List Panel :=
  match ps with
  | [] => []
  | p :: rest => if p.id == i then f p :: rest else p :: updateFirst rest i f

/-- `querySelectorAll('[role="panel"].visible').forEach(p => p.classList.remove('visible'))`. -/
def stripVisible (ps : List Panel) : List Panel :=
  ps.map (fun p => { p with classes := removeClass "visible" p.classes })

/-- Class update applied to the outgoing panel element (lines 308-309 of the
source): `toggle('previous', sel.index <= tgt.index)` then
`toggle('next', sel.index >= tgt.index)`. -/
def selClassUpdate (condPrev condNext : Bool) (p : Panel) : Panel :=
  { p with classes := toggleClassForce "next" condNext (toggleClassForce "previous" condPrev p.classes) }

/-- Class update applied to the target panel element (lines 311-313 of the
source): plain `toggle('visible')`, then the same two forced toggles. -/
def tgtClassUpdate (condPrev condNext : Bool) (p : Panel) : Panel :=
  { p with classes := toggleClassForce "next" condNext (toggleClassForce "previous" condPrev (toggleClass "visible" p.classes)) }

/-- Outcome of one `togglePanelVisibility` call. -/
inductive TResult where
  /-- early return because `selectedPanelId === targetPanelId` -/
  | noop
  /-- early return because `document.getElementById(selectedPanelId)` is null -/
  | aborted
  /-- an uncaught exception escaped the call -/
  | threw
  /-- the call ran to the end -/
  | completed
deriving DecidableEq

/-- `togglePanelVisibility(selectedPanelId, targetPanelId)`, the transition
routine.  Returns the updated state, the way the call ended, and the list
of controller lifecycle methods that were actually invoked, in order. -/
def togglePanelVisibility (st : PCState) (selectedPanelId targetPanelId : String) :
    PCState × TResult × List LifeEvent :=
  if selectedPanelId ≠ targetPanelId then
    let st1 := { st with
      previousPanelId := if selectedPanelId = "" then "root" else selectedPanelId,
      currentPanelId := targetPanelId }
    let st2 := { st1 with history := st1.history ++ [targetPanelId] }
    match getById st2.panels selectedPanelId with
    | none => (st2, TResult.aborted, [])
    | some sp =>
      match getById st2.panels targetPanelId with
      | none => (st2, TResult.threw, [])
      | some tp =>
        let st3 :=
          match tp.previousPageId with
          | some pid => if pid ≠ "" then { st2 with previousPanelId := pid } else st2
          | none => st2
        let condPrev := jsStrLe sp.index tp.index
        let condNext := jsStrLe tp.index sp.index
        let ps1 := stripVisible st3.panels
        let ps2 := updateFirst ps1 selectedPanelId (selClassUpdate condPrev condNext)
        let ps3 := updateFirst ps2 targetPanelId (tgtClassUpdate condPrev condNext)
        let st4 := { st3 with panels := ps3 }
        let hideEvents := runHide st4.win sp.pageObject
        let res := runTarget st4.win tp.pageObject
        let st5 := { st4 with win := res.fst }
        (st5, if res.snd.snd then TResult.threw else TResult.completed,
          hideEvents ++ res.snd.fst)
  else (st, TResult.noop, [])

/-! ### Keyboard handling -/

/-- `document.querySelector('.selected').classList.remove('selected')`
applied to the activation buttons. -/
def removeFirstSelected : List Button → List Button
  | [] => []
  | b :: rest =>
    if "selected" ∈ b.classes then
      { b with classes := removeClass "selected" b.classes } :: rest
    else b :: removeFirstSelected rest

/-- `handleKeyDown`: ignored while `isKeyDown` is set; on Escape, clears the
first selected button, and when both pointer ids are truthy runs the back
transition and then sets `isKeyDown` (an uncaught exception in the
transition skips the `isKeyDown = true` assignment). -/
def handleKeyDown (st : PCState) (key : String) : PCState × List LifeEvent :=
  if st.isKeyDown then (st, [])
  else if key = "Escape" then
    let st1 := { st with buttons := removeFirstSelected st.buttons }
    if st1.previousPanelId ≠ "" ∧ st1.currentPanelId ≠ "" then
      let r := togglePanelVisibility st1 st1.currentPanelId st1.previousPanelId
      if r.snd.fst = TResult.threw then (r.fst, r.snd.snd)
      else ({ r.fst with isKeyDown := true }, r.snd.snd)
    else (st1, [])
  else (st, [])

/-- `handleKeyUp`: clears the guard. -/
def handleKeyUp (st : PCState) : PCState :=
  { st with isKeyDown := false }

/-! ### Scroll progress and easing (exact-rational model of the JS numbers) -/

/-- The general 4-point cubic Bézier evaluation of the source. -/
def cubicBezier (t p0 p1 p2 p3 : ℚ) : ℚ :=
  let u := 1 - t
  let tt := t * t
  let uu := u * u
  let uuu := uu * u
  let ttt := tt * t
  uuu * p0 + 3 * uu * t * p1 + 3 * u * tt * p2 + ttt * p3

/-- Native `scroll` listener: `content.scrollTop / 80`, capped at 1. -/
def contentScrollProgress (scrollTop : ℚ) : ℚ :=
  let progress := scrollTop / 80
  if progress ≥ 1 then 1 else progress

/-- Smooth-scroll library listener: `scrollbar.offset.y / 40`, capped at 1. -/
def scrollbarProgress (offsetY : ℚ) : ℚ :=
  let progress := offsetY / 40
  if progress ≥ 1 then 1 else progress

/-- Overscroll plugin `onScroll`: returns early unless `params.y < 0`; the
published value is `(-y) / 300`, capped at 1. -/
def overscrollOnScroll (y : ℚ) : Option ℚ :=
  if y ≥ 0 then none
  else
    let scrollPosition := y * -1
    let progress := scrollPosition / 300
    some (if progress ≥ 1 then 1 else progress)

/-- `setProgress`: publishes the raw progress and its eased value
`cubicBezier(progress, 0, 0, 0, 1)`. -/
def setProgressVars (progress : ℚ) : ℚ × ℚ :=
  (progress, cubicBezier progress 0 0 0 1)

/-! ### Derived observations used by the statements -/

/-- Number of panels currently carrying the `visible` class. -/
def countVisible (ps : List Panel) : Nat :=
  (ps.filter (fun p => decide ("visible" ∈ p.classes))).length

/-- Class list of the panel with the given id (empty when absent). -/
def classesOf (ps : List Panel) (i : String) : List String :=
  ((getById ps i).map Panel.classes).getD []

/-- The controller object a `data-page-object` path resolves to, following
the target-side resolution of the source: the first path component looked
up in `window`, then the second component among its children when the path
is dotted (with a nonempty second component), the object itself otherwise. -/
def resolvedCtrl (w : Window) (code : String) : Option Ctrl :=
  match winGet w ((jsSplitDot code).headD "") with
  | none => none
  | some bs =>
    match (jsSplitDot code)[1]? with
    | some o => if o ≠ "" then childGet bs o else some bs.self
    | none => some bs.self

/-- Whether the target block of `togglePanelVisibility` will run an `init`
that throws (the only uncaught spot of the lifecycle dispatch). -/
def initThrowsOn (w : Window) (pageCode : Option String) : Bool :=
  match pageCode with
  | none => false
  | some code =>
    if code = "" then false
    else
      match resolvedCtrl w code with
      | some c => !c.isLoaded && c.initThrows
      | none => false

/-- The state produced by a `togglePanelVisibility` call that passes both
early returns, expressed directly from the source and target panels. -/
def mainState (st : PCState) (fromId toId : String) (sp tp : Panel) : PCState :=
  let prev0 := if fromId = "" then "root" else fromId
  let condPrev := jsStrLe sp.index tp.index
  let condNext := jsStrLe tp.index sp.index
  { previousPanelId :=
      match tp.previousPageId with
      | some pid => if pid ≠ "" then pid else prev0
      | none => prev0
    currentPanelId := toId
    isKeyDown := st.isKeyDown
    panels := updateFirst (updateFirst (stripVisible st.panels) fromId
      (selClassUpdate condPrev condNext)) toId (tgtClassUpdate condPrev condNext)
    win := (runTarget st.win tp.pageObject).fst
    history := st.history ++ [toId]
    buttons := st.buttons }

/-- The update `setLoadedChild` performs on the bootstrap object bound to
the first path component. -/
def loadChild (o : String) (bs : Bootstrap) : Bootstrap :=
  ⟨bs.self, bs.children.map (fun c =>
    if c.fst == o then (c.fst, { c.snd with isLoaded := true }) else c)⟩

/-- The update `setLoadedSelf` performs on the bootstrap object. -/
def loadSelf (bs : Bootstrap) : Bootstrap :=
  ⟨{ bs.self with isLoaded := true }, bs.children⟩

/-! ### Concrete states used for counterexamples and witnesses -/

/-- Panel `home`: document order index 0, initially visible. -/
def homePanel : Panel := ⟨"home", "0", ["visible"], none, none⟩

/-- Panel `settings`: document order index 2, initially `next`. -/
def settingsPanel : Panel := ⟨"settings", "2", ["next"], none, none⟩

/-- Panel `lib`: declares the controller path `Store.Library`. -/
def libPanel : Panel := ⟨"lib", "1", ["next"], none, some "Store.Library"⟩

/-- A two-panel document with an empty `window`. -/
def demoState : PCState := ⟨"", "", false, [homePanel, settingsPanel], ⟨[]⟩, [], []⟩

/-- A well-behaved, not yet loaded `Store.Library` controller. -/
def goodLibrary : Ctrl := ⟨false, false, false, false⟩

/-- `home` plus `lib`, with `Store.Library` resolvable and fresh. -/
def goodState : PCState :=
  ⟨"", "", false, [homePanel, libPanel],
   ⟨[("Store", ⟨⟨true, false, false, false⟩, [("Library", goodLibrary)]⟩)]⟩, [], []⟩

/-- A `Store.Library` controller whose `init` throws. -/
def throwingLibrary : Ctrl := ⟨false, true, true, true⟩

/-- `home` plus `lib`, with a `Store.Library` whose `init` throws. -/
def faultyState : PCState :=
  ⟨"", "", false, [homePanel, libPanel],
   ⟨[("Store", ⟨⟨true, false, false, false⟩, [("Library", throwingLibrary)]⟩)]⟩, [], []⟩

/-- A loaded `Store.Library` controller whose `show` and `hide` throw. -/
def swallowLibrary : Ctrl := ⟨false, false, true, true⟩

/-- Transitioning away from `lib`: its `hide` throws, and `Library` is also
bound at top level so the (buggy) hide guard passes. -/
def swallowState : PCState :=
  ⟨"", "", false, [homePanel, libPanel],
   ⟨[("Store", ⟨⟨true, false, false, false⟩, [("Library", swallowLibrary)]⟩),
     ("Library", ⟨⟨true, false, false, false⟩, []⟩)]⟩, [], []⟩

/-- Panel with document order index 2 (two-panel digit). -/
def pageTwo : Panel := ⟨"two", "2", ["visible"], none, none⟩

/-- Panel with document order index 10 (two digits: JS string comparison of
`dataset.index` diverges from numeric order against `"2"`). -/
def pageTen : Panel := ⟨"ten", "10", ["next"], none, none⟩

/-- An 11-panel document reduced to the two panels that matter, indices
`"2"` and `"10"`. -/
def wideState : PCState := ⟨"", "", false, [pageTwo, pageTen], ⟨[]⟩, [], []⟩

/-- State for the Escape-key scenario: `settings` visible,
NavigationPointer `previous="home", current="settings"`, one selected
activation button. -/
def escState : PCState :=
  ⟨"home", "settings", false,
   [⟨"home", "0", ["previous"], none, none⟩, ⟨"settings", "2", ["visible"], none, none⟩],
   ⟨[]⟩, [], [⟨"settings", ["selected"]⟩]⟩

/-! ### Class-membership lemmas -/

theorem mem_addClass {v c : String} {cs : List String} :
    v ∈ addClass c cs ↔ (v ∈ cs ∨ v = c) := by
  unfold addClass
  split
  · constructor
    · exact Or.inl
    · rintro (h | rfl)
      · exact h
      · assumption
  · simp [List.mem_append]

theorem mem_removeClass {v c : String} {cs : List String} :
    v ∈ removeClass c cs ↔ (v ∈ cs ∧ v ≠ c) := by
  simp [removeClass, List.mem_filter]

theorem mem_toggleForce_self {c : String} {b : Bool} {cs : List String} :
    c ∈ toggleClassForce c b cs ↔ b = true := by
  cases b <;> simp [toggleClassForce, mem_addClass, mem_removeClass]

theorem mem_toggleForce_other {v c : String} (b : Bool) {cs : List String} (h : v ≠ c) :
    v ∈ toggleClassForce c b cs ↔ v ∈ cs := by
  cases b <;> simp [toggleClassForce, mem_addClass, mem_removeClass, h]

theorem mem_toggleClass_of_not_mem {c : String} {cs : List String} (h : c ∉ cs) :
    c ∈ toggleClass c cs := by
  simp [toggleClass, h, mem_addClass]

/-! ### getById / updateFirst / stripVisible tracking lemmas -/

theorem getById_cons {p : Panel} {ps : List Panel} {i : String} :
    getById (p :: ps) i = if p.id == i then some p else getById ps i := by
  simp [getById, List.find?_cons]
  split <;> simp_all

theorem getById_stripVisible (ps : List Panel) (i : String) :
    getById (stripVisible ps) i =
      (getById ps i).map (fun p => { p with classes := removeClass "visible" p.classes }) := by
  induction ps with
  | nil => rfl
  | cons p rest ih =>
    by_cases h : p.id = i
    · simp [stripVisible, getById_cons, h]
    · simpa [stripVisible, getById_cons, h] using ih

theorem getById_updateFirst_self (ps : List Panel) (i : String) (f : Panel → Panel)
    (hf : ∀ p, (f p).id = p.id) :
    getById (updateFirst ps i f) i = (getById ps i).map f := by
  induction ps with
  | nil => rfl
  | cons p rest ih =>
    by_cases h : p.id = i
    · simp [updateFirst, getById_cons, h, hf]
    · simpa [updateFirst, getById_cons, h] using ih

theorem getById_updateFirst_other (ps : List Panel) (i j : String) (f : Panel → Panel)
    (hij : j ≠ i) (hf : ∀ p, (f p).id = p.id) :
    getById (updateFirst ps i f) j = getById ps j := by
  induction ps with
  | nil => rfl
  | cons p rest ih =>
    by_cases h : p.id = i
    · have h2 : (f p).id = i := by rw [hf, h]
      have h3 : ¬((f p).id = j) := by rw [h2]; exact fun hh => hij hh.symm
      have h4 : ¬(p.id = j) := by rw [h]; exact fun hh => hij hh.symm
      simp [updateFirst, getById_cons, h, h3, h4, Ne.symm hij]
    · rw [updateFirst, if_neg (by simpa using h), getById_cons, getById_cons, ih]

theorem mem_stripVisible_not_visible (ps : List Panel) :
    ∀ p ∈ stripVisible ps, "visible" ∉ p.classes := by
  intro p hp
  simp only [stripVisible, List.mem_map] at hp
  obtain ⟨q, _, rfl⟩ := hp
  simp [mem_removeClass]

theorem mem_updateFirst_preserves (ps : List Panel) (i : String) (f : Panel → Panel)
    (hpf : ∀ p, "visible" ∉ p.classes → "visible" ∉ (f p).classes)
    (hall : ∀ p ∈ ps, "visible" ∉ p.classes) :
    ∀ p ∈ updateFirst ps i f, "visible" ∉ p.classes := by
  induction ps with
  | nil => intro p hp; simp [updateFirst] at hp
  | cons q rest ih =>
    intro p hp
    unfold updateFirst at hp
    split at hp
    · rcases List.mem_cons.mp hp with rfl | hmem
      · exact hpf q (hall q (by simp))
      · exact hall p (by simp [hmem])
    · rcases List.mem_cons.mp hp with rfl | hmem
      · exact hall p (by simp)
      · exact ih (fun r hr => hall r (by simp [hr])) p hmem

theorem countVisible_eq_zero {ps : List Panel}
    (h : ∀ p ∈ ps, "visible" ∉ p.classes) : countVisible ps = 0 := by
  unfold countVisible
  rw [List.length_eq_zero, List.filter_eq_nil_iff]
  intro p hp
  simpa using h p hp

theorem countVisible_updateFirst {ps : List Panel} {i : String} {f : Panel → Panel} {q : Panel}
    (hall : ∀ p ∈ ps, "visible" ∉ p.classes)
    (hq : getById ps i = some q)
    (hf : "visible" ∈ (f q).classes) :
    countVisible (updateFirst ps i f) = 1 := by
  induction ps with
  | nil => simp [getById] at hq
  | cons p rest ih =>
    rw [getById_cons] at hq
    by_cases h : p.id = i
    · simp only [h, beq_self_eq_true, if_pos] at hq
      obtain rfl : p = q := by injection hq
      have hrest : countVisible rest = 0 :=
        countVisible_eq_zero (fun r hr => hall r (by simp [hr]))
      simp [updateFirst, h, countVisible, List.filter_cons, hf]
      simpa [countVisible] using hrest
    · simp only [beq_iff_eq, h, if_neg, not_false_iff] at hq
      have hp : "visible" ∉ p.classes := hall p (by simp)
      have := ih (fun r hr => hall r (by simp [hr])) hq
      simp only [updateFirst, beq_iff_eq, h, if_neg, not_false_iff]
      simpa [countVisible, List.filter_cons, hp] using this

/-! ### The main branch of `togglePanelVisibility` in closed form -/

theorem togglePanelVisibility_eq (st : PCState) (fromId toId : String) (sp tp : Panel)
    (hne : fromId ≠ toId) (hsp : getById st.panels fromId = some sp)
    (htp : getById st.panels toId = some tp) :
    togglePanelVisibility st fromId toId =
      (mainState st fromId toId sp tp,
       if (runTarget st.win tp.pageObject).snd.snd then TResult.threw else TResult.completed,
       runHide st.win sp.pageObject ++ (runTarget st.win tp.pageObject).snd.fst) := by
  unfold togglePanelVisibility mainState
  rw [if_pos hne]
  simp only [hsp, htp]
  cases hpp : tp.previousPageId with
  | none => simp
  | some pid => by_cases hpid : pid = "" <;> simp [hpid]

/-! ### Lifecycle dispatch lemmas -/

theorem runHide_cases (w : Window) (pc : Option String) :
    runHide w pc = [] ∨ ∃ b o, runHide w pc = [LifeEvent.hideCall b o] := by
  unfold runHide
  dsimp only
  repeat' split
  all_goals first
    | exact Or.inl rfl
    | exact Or.inr ⟨_, _, rfl⟩

theorem runHide_filter_isInit (w : Window) (pc : Option String) :
    (runHide w pc).filter LifeEvent.isInit = [] := by
  rcases runHide_cases w pc with h | ⟨b, o, h⟩ <;> simp [h, LifeEvent.isInit]

theorem runHide_filter_isShow (w : Window) (pc : Option String) :
    (runHide w pc).filter LifeEvent.isShow = [] := by
  rcases runHide_cases w pc with h | ⟨b, o, h⟩ <;> simp [h, LifeEvent.isShow]

theorem find?_map_key {β : Type} (l : List (String × β)) (k : String) (g : β → β) :
    (l.map (fun e => if e.fst == k then (e.fst, g e.snd) else e)).find? (fun e => e.fst == k) =
      (l.find? (fun e => e.fst == k)).map (fun e => (e.fst, g e.snd)) := by
  induction l with
  | nil => rfl
  | cons e rest ih =>
    by_cases h : (e.fst == k) = true
    · rw [List.map_cons, if_pos h]
      simp only [List.find?_cons]
      rw [h]
      rfl
    · have hf : (e.fst == k) = false := by simpa using h
      rw [List.map_cons, if_neg (by simpa using h)]
      simp only [List.find?_cons]
      rw [hf, ih]

theorem assoc_get_map_key {β : Type} (l : List (String × β)) (k : String) (g : β → β) :
    ((l.map (fun e => if e.fst == k then (e.fst, g e.snd) else e)).find?
        (fun e => e.fst == k)).map (fun e => e.snd) =
      ((l.find? (fun e => e.fst == k)).map (fun e => e.snd)).map g := by
  rw [find?_map_key]
  cases l.find? (fun e => e.fst == k) <;> rfl

theorem winGet_setLoadedChild (w : Window) (b o : String) :
    winGet (setLoadedChild w b o) b = (winGet w b).map (loadChild o) :=
  assoc_get_map_key w.entries b (loadChild o)

theorem winGet_setLoadedSelf (w : Window) (b : String) :
    winGet (setLoadedSelf w b) b = (winGet w b).map loadSelf :=
  assoc_get_map_key w.entries b loadSelf

theorem childGet_loadChild (bs : Bootstrap) (o : String) :
    childGet (loadChild o bs) o = (childGet bs o).map (fun c => { c with isLoaded := true }) :=
  assoc_get_map_key bs.children o (fun c => { c with isLoaded := true })

theorem runTarget_unresolved (w : Window) (code : String) (hc : code ≠ "")
    (hr : resolvedCtrl w code = none) : runTarget w (some code) = (w, [], false) := by
  unfold runTarget
  unfold resolvedCtrl at hr
  dsimp only
  rw [if_neg hc]
  cases hw : winGet w ((jsSplitDot code).headD "") with
  | none => rfl
  | some bs =>
    rw [hw] at hr
    dsimp only at hr ⊢
    cases ho : (jsSplitDot code)[1]? with
    | none =>
      rw [ho] at hr
      simp at hr
    | some o =>
      rw [ho] at hr
      dsimp only at hr ⊢
      by_cases hoe : o = ""
      · rw [if_neg (by simp [hoe])] at hr
        simp at hr
      · rw [if_pos hoe] at hr
        rw [if_pos hoe, hr]

theorem runTargetBare_fresh (w : Window) (b : String) (bs : Bootstrap)
    (hl : bs.self.isLoaded = false) (hi : bs.self.initThrows = false) :
    runTargetBare w b bs =
      (setLoadedSelf w b, [LifeEvent.initCall b none, LifeEvent.showCall b none], false) := by
  simp [runTargetBare, hl, hi]

theorem runTarget_resolved_fresh (w : Window) (code : String) (c : Ctrl) (hc : code ≠ "")
    (hr : resolvedCtrl w code = some c) (hl : c.isLoaded = false) (hi : c.initThrows = false) :
    ∃ b o, (runTarget w (some code)).snd.fst = [LifeEvent.initCall b o, LifeEvent.showCall b o]
      ∧ (runTarget w (some code)).snd.snd = false
      ∧ resolvedCtrl (runTarget w (some code)).fst code = some { c with isLoaded := true } := by
  unfold runTarget
  unfold resolvedCtrl at hr
  dsimp only
  rw [if_neg hc]
  cases hw : winGet w ((jsSplitDot code).headD "") with
  | none => rw [hw] at hr; simp at hr
  | some bs =>
    rw [hw] at hr
    dsimp only at hr ⊢
    cases ho : (jsSplitDot code)[1]? with
    | none =>
      rw [ho] at hr
      dsimp only at hr ⊢
      have hself : bs.self = c := by simpa using hr
      rw [runTargetBare_fresh w _ bs (by rw [hself]; exact hl) (by rw [hself]; exact hi)]
      refine ⟨_, none, rfl, rfl, ?_⟩
      unfold resolvedCtrl
      rw [winGet_setLoadedSelf, hw]
      simp [ho, loadSelf, hself]
    | some o =>
      rw [ho] at hr
      dsimp only at hr ⊢
      by_cases hoe : o = ""
      · rw [if_neg (by simp [hoe])] at hr
        have hself : bs.self = c := by simpa using hr
        rw [if_neg (by simp [hoe]),
          runTargetBare_fresh w _ bs (by rw [hself]; exact hl) (by rw [hself]; exact hi)]
        refine ⟨_, none, rfl, rfl, ?_⟩
        unfold resolvedCtrl
        rw [winGet_setLoadedSelf, hw]
        simp [ho, hoe, loadSelf, hself]
      · rw [if_pos hoe] at hr
        have hstep : winGet (setLoadedChild w ((jsSplitDot code).headD "") o)
            ((jsSplitDot code).headD "") = some (loadChild o bs) := by
          rw [winGet_setLoadedChild, hw]; rfl
        have hchild : childGet (loadChild o bs) o = some { c with isLoaded := true } := by
          rw [childGet_loadChild, hr]; rfl
        rw [if_pos hoe, hr]
        dsimp only
        have hc1 : (!c.isLoaded) = true := by rw [hl]; rfl
        have hc2 : ¬(c.initThrows = true) := by rw [hi]; simp
        rw [if_pos hc1, if_neg hc2, hstep]
        dsimp only
        rw [hchild]
        refine ⟨_, some o, rfl, rfl, ?_⟩
        unfold resolvedCtrl
        rw [hstep]
        simp [ho, hoe, hchild]

theorem runTarget_resolved_loaded (w : Window) (code : String) (c : Ctrl) (hc : code ≠ "")
    (hr : resolvedCtrl w code = some c) (hl : c.isLoaded = true) :
    ∃ b o, runTarget w (some code) = (w, [LifeEvent.showCall b o], false) := by
  unfold runTarget
  unfold resolvedCtrl at hr
  dsimp only
  rw [if_neg hc]
  cases hw : winGet w ((jsSplitDot code).headD "") with
  | none => rw [hw] at hr; simp at hr
  | some bs =>
    rw [hw] at hr
    dsimp only at hr ⊢
    cases ho : (jsSplitDot code)[1]? with
    | none =>
      rw [ho] at hr
      dsimp only at hr ⊢
      have hself : bs.self = c := by simpa using hr
      exact ⟨(jsSplitDot code).headD "", none, by simp [runTargetBare, hself, hl]⟩
    | some o =>
      rw [ho] at hr
      dsimp only at hr ⊢
      by_cases hoe : o = ""
      · rw [if_neg (by simp [hoe])] at hr
        have hself : bs.self = c := by simpa using hr
        rw [if_neg (by simp [hoe])]
        exact ⟨(jsSplitDot code).headD "", none, by simp [runTargetBare, hself, hl]⟩
      · rw [if_pos hoe] at hr
        rw [if_pos hoe, hr]
        exact ⟨(jsSplitDot code).headD "", some o, by simp [hl]⟩

theorem runTarget_init_throws (w : Window) (code : String) (c : Ctrl) (hc : code ≠ "")
    (hr : resolvedCtrl w code = some c) (hl : c.isLoaded = false) (hi : c.initThrows = true) :
    ∃ b o, runTarget w (some code) = (w, [LifeEvent.initCall b o], true) := by
  unfold runTarget
  unfold resolvedCtrl at hr
  dsimp only
  rw [if_neg hc]
  cases hw : winGet w ((jsSplitDot code).headD "") with
  | none => rw [hw] at hr; simp at hr
  | some bs =>
    rw [hw] at hr
    dsimp only at hr ⊢
    cases ho : (jsSplitDot code)[1]? with
    | none =>
      rw [ho] at hr
      dsimp only at hr ⊢
      have hself : bs.self = c := by simpa using hr
      exact ⟨(jsSplitDot code).headD "", none, by simp [runTargetBare, hself, hl, hi]⟩
    | some o =>
      rw [ho] at hr
      dsimp only at hr ⊢
      by_cases hoe : o = ""
      · rw [if_neg (by simp [hoe])] at hr
        have hself : bs.self = c := by simpa using hr
        rw [if_neg (by simp [hoe])]
        exact ⟨(jsSplitDot code).headD "", none, by simp [runTargetBare, hself, hl, hi]⟩
      · rw [if_pos hoe] at hr
        rw [if_pos hoe, hr]
        exact ⟨(jsSplitDot code).headD "", some o, by simp [hl, hi]⟩

theorem runTarget_throw_char (w : Window) (pc : Option String) :
    (runTarget w pc).snd.snd = initThrowsOn w pc := by
  cases pc with
  | none => rfl
  | some code =>
    by_cases hc : code = ""
    · simp [runTarget, initThrowsOn, hc]
    · unfold initThrowsOn
      dsimp only
      rw [if_neg hc]
      cases hr : resolvedCtrl w code with
      | none => rw [runTarget_unresolved w code hc hr]
      | some c =>
        cases hlc : c.isLoaded with
        | false =>
          cases hit : c.initThrows with
          | false =>
            obtain ⟨b, o, _, h2, _⟩ := runTarget_resolved_fresh w code c hc hr hlc hit
            rw [h2]
            simp [hlc, hit]
          | true =>
            obtain ⟨b, o, heq⟩ := runTarget_init_throws w code c hc hr hlc hit
            rw [heq]
            simp [hlc, hit]
        | true =>
          obtain ⟨b, o, heq⟩ := runTarget_resolved_loaded w code c hc hr hlc
          rw [heq]
          simp [hlc]


/-! ### Claim theorems -/

/-- C1 counterexample: the claim says that when the source panel id does not
resolve, the transition aborts with no history push; at the concrete input
`Transition("ghost", "home")` on `demoState` the call does abort, yet the
history HAS been pushed (the push precedes the missing-source check). -/
theorem C1_counterexample :
    (togglePanelVisibility demoState "ghost" "home").snd.fst = TResult.aborted
    ∧ (togglePanelVisibility demoState "ghost" "home").fst.history ≠ demoState.history := by
  refine ⟨by decide, by decide⟩

/-- C1 (amended): when `fromId ≠ toId` and the source panel does not resolve,
the transition aborts after mutating the NavigationPointer AND pushing the
new URL into history; panels, window, buttons are untouched and no
lifecycle call occurs. -/
theorem C1_aborted_after_pointer_and_history (st : PCState) (fromId toId : String)
    (hne : fromId ≠ toId) (hsp : getById st.panels fromId = none) :
    togglePanelVisibility st fromId toId =
      ({ st with previousPanelId := (if fromId = "" then "root" else fromId),
                 currentPanelId := toId,
                 history := st.history ++ [toId] }, TResult.aborted, []) := by
  unfold togglePanelVisibility
  rw [if_pos hne]
  dsimp only
  simp only [hsp]

/-- C1 witness: the amended theorem evaluated at the aborted `demoState`
transition. -/
theorem C1_witness :
    togglePanelVisibility demoState "ghost" "home" =
      ({ demoState with
           previousPanelId := (if "ghost" = "" then "root" else "ghost"),
           currentPanelId := "home",
           history := demoState.history ++ ["home"] },
       TResult.aborted, []) :=
  C1_aborted_after_pointer_and_history demoState "ghost" "home" (by decide) (by decide)

/-- C3: `Transition(x, x)` is a no-op: the state (NavigationPointer, panel
and button classes, history) is returned unchanged, no lifecycle call runs. -/
theorem C3_self_transition_noop (st : PCState) (x : String) :
    togglePanelVisibility st x x = (st, TResult.noop, []) := by
  unfold togglePanelVisibility
  simp

/-- C10: when the source panel resolves but the target does not, the call has
already mutated the NavigationPointer and pushed the new URL into history
before it throws on the missing target panel; those partial mutations
persist and nothing else changes. -/
theorem C10_missing_target_throws (st : PCState) (fromId toId : String) (sp : Panel)
    (hne : fromId ≠ toId) (hsp : getById st.panels fromId = some sp)
    (htp : getById st.panels toId = none) :
    togglePanelVisibility st fromId toId =
      ({ st with previousPanelId := (if fromId = "" then "root" else fromId),
                 currentPanelId := toId,
                 history := st.history ++ [toId] }, TResult.threw, []) := by
  unfold togglePanelVisibility
  rw [if_pos hne]
  dsimp only
  simp only [hsp, htp]

/-- C10 witness: the theorem evaluated at `Transition("home", "ghost")` on
`demoState`. -/
theorem C10_witness :
    togglePanelVisibility demoState "home" "ghost" =
      ({ demoState with
           previousPanelId := (if "home" = "" then "root" else "home"),
           currentPanelId := "ghost",
           history := demoState.history ++ ["ghost"] },
       TResult.threw, []) :=
  C10_missing_target_throws demoState "home" "ghost" homePanel (by decide) (by decide) (by decide)


theorem contentScrollProgress_eq_min (z : ℚ) : contentScrollProgress z = min (z / 80) 1 := by
  unfold contentScrollProgress
  dsimp only
  split
  · rename_i h
    exact (min_eq_right h).symm
  · rename_i h
    exact (min_eq_left (le_of_lt (lt_of_not_ge h))).symm

theorem scrollbarProgress_eq_min (z : ℚ) : scrollbarProgress z = min (z / 40) 1 := by
  unfold scrollbarProgress
  dsimp only
  split
  · rename_i h
    exact (min_eq_right h).symm
  · rename_i h
    exact (min_eq_left (le_of_lt (lt_of_not_ge h))).symm

/-- C4 counterexample: at scroll offset −80 the native-scroll progress is −1:
it differs from `clamp(−80/80, 0, 1) = 0` and lies outside `[0,1]`, because
the code only caps the ratio from above. -/
theorem C4_counterexample :
    contentScrollProgress (-80) = -1
    ∧ contentScrollProgress (-80) ≠ max 0 (min ((-80 : ℚ) / 80) 1)
    ∧ ¬(0 ≤ contentScrollProgress (-80)) := by
  refine ⟨?_, ?_, ?_⟩ <;> norm_num [contentScrollProgress]

/-- C4 (amended): the published raw progress is `min(offset/THRESHOLD, 1)`
(THRESHOLD 80 for native scrolling, 40 for the smooth-scroll library); it
agrees with `clamp(offset/THRESHOLD, 0, 1)` and lies in `[0,1]` for every
non-negative offset, and the overscroll progress (published only for
negative `y`) always lies in `[0,1]`, also beyond the 300-unit range. -/
theorem C4_progress_clamped (x : ℚ) (hx : 0 ≤ x) :
    contentScrollProgress x = max 0 (min (x / 80) 1)
    ∧ scrollbarProgress x = max 0 (min (x / 40) 1)
    ∧ 0 ≤ contentScrollProgress x ∧ contentScrollProgress x ≤ 1
    ∧ 0 ≤ scrollbarProgress x ∧ scrollbarProgress x ≤ 1
    ∧ (∀ z : ℚ, contentScrollProgress z = min (z / 80) 1)
    ∧ (∀ z : ℚ, scrollbarProgress z = min (z / 40) 1)
    ∧ (∀ y p : ℚ, overscrollOnScroll y = some p → 0 ≤ p ∧ p ≤ 1) := by
  have h80 : (0 : ℚ) ≤ min (x / 80) 1 :=
    le_min (by positivity) (by norm_num)
  have h40 : (0 : ℚ) ≤ min (x / 40) 1 :=
    le_min (by positivity) (by norm_num)
  refine ⟨?_, ?_, ?_, ?_, ?_, ?_, contentScrollProgress_eq_min, scrollbarProgress_eq_min, ?_⟩
  · rw [contentScrollProgress_eq_min, max_eq_right h80]
  · rw [scrollbarProgress_eq_min, max_eq_right h40]
  · rw [contentScrollProgress_eq_min]; exact h80
  · rw [contentScrollProgress_eq_min]; exact min_le_right _ _
  · rw [scrollbarProgress_eq_min]; exact h40
  · rw [scrollbarProgress_eq_min]; exact min_le_right _ _
  · intro y p h
    unfold overscrollOnScroll at h
    by_cases hy : y ≥ 0
    · rw [if_pos hy] at h
      exact absurd h (by simp)
    · rw [if_neg hy] at h
      have hy' : y < 0 := lt_of_not_ge hy
      have hpos : (0 : ℚ) ≤ y * -1 / 300 := by
        have h1 : (0 : ℚ) ≤ y * -1 := by nlinarith
        exact div_nonneg h1 (by norm_num)
      injection h with h
      split at h
      · exact ⟨by rw [← h]; norm_num, by rw [← h]⟩
      · rename_i hlt
        exact ⟨by rw [← h]; exact hpos, by rw [← h]; exact le_of_lt (lt_of_not_ge hlt)⟩

/-- C4 witness: the amended theorem evaluated at offset 160. -/
theorem C4_witness :
    contentScrollProgress 160 = max 0 (min ((160 : ℚ) / 80) 1)
    ∧ 0 ≤ contentScrollProgress (160 : ℚ)
    ∧ contentScrollProgress (160 : ℚ) ≤ 1 :=
  ⟨(C4_progress_clamped 160 (by norm_num)).1,
   (C4_progress_clamped 160 (by norm_num)).2.2.1,
   (C4_progress_clamped 160 (by norm_num)).2.2.2.1⟩

/-- C6: `cubicBezier` is the general 4-point Bézier polynomial evaluated
parametrically: it equals `(1−t)³p0 + 3(1−t)²t·p1 + 3(1−t)t²·p2 + t³p3` for
all control values, takes the value `p0` at `t = 0` and `p3` at `t = 1`, and
is monotone on `[0,1]` for the control set `(0,0,0,1)`. -/
theorem C6_cubicBezier_general (s t : ℚ) (h0 : 0 ≤ s) (h1 : s ≤ t) (_h2 : t ≤ 1) :
    (∀ u p0 p1 p2 p3 : ℚ, cubicBezier u p0 p1 p2 p3 =
        (1 - u) ^ 3 * p0 + 3 * (1 - u) ^ 2 * u * p1 + 3 * (1 - u) * u ^ 2 * p2 + u ^ 3 * p3)
    ∧ (∀ p0 p1 p2 p3 : ℚ, cubicBezier 0 p0 p1 p2 p3 = p0)
    ∧ (∀ p0 p1 p2 p3 : ℚ, cubicBezier 1 p0 p1 p2 p3 = p3)
    ∧ cubicBezier s 0 0 0 1 ≤ cubicBezier t 0 0 0 1 := by
  refine ⟨?_, ?_, ?_, ?_⟩
  · intro u p0 p1 p2 p3
    unfold cubicBezier
    ring
  · intro p0 p1 p2 p3
    unfold cubicBezier
    ring
  · intro p0 p1 p2 p3
    unfold cubicBezier
    ring
  · have hs : cubicBezier s 0 0 0 1 = s ^ 3 := by unfold cubicBezier; ring
    have ht : cubicBezier t 0 0 0 1 = t ^ 3 := by unfold cubicBezier; ring
    rw [hs, ht]
    exact pow_le_pow_left₀ h0 h1 3

/-- C6 witness: the theorem evaluated at `s = 1/4 ≤ t = 3/4`. -/
theorem C6_witness :
    cubicBezier ((1 : ℚ)/4) 0 0 0 1 ≤ cubicBezier ((3 : ℚ)/4) 0 0 0 1 :=
  (C6_cubicBezier_general (1/4) (3/4) (by norm_num) (by norm_num) (by norm_num)).2.2.2


/-- C2: any completed transition (`fromId ≠ toId`, both panels resolve)
leaves exactly one panel carrying the `visible` class, even when several
panels were visible beforehand: every visible panel is stripped first and
only the target is re-toggled visible. -/
theorem C2_exactly_one_visible (st : PCState) (fromId toId : String) (sp tp : Panel)
    (hne : fromId ≠ toId) (hsp : getById st.panels fromId = some sp)
    (htp : getById st.panels toId = some tp) :
    countVisible (togglePanelVisibility st fromId toId).fst.panels = 1 := by
  rw [togglePanelVisibility_eq st fromId toId sp tp hne hsp htp]
  unfold mainState
  dsimp only
  have hall1 := mem_stripVisible_not_visible st.panels
  have hpres : ∀ p : Panel, "visible" ∉ p.classes →
      "visible" ∉ (selClassUpdate (jsStrLe sp.index tp.index) (jsStrLe tp.index sp.index) p).classes := by
    intro p hp hmem
    simp only [selClassUpdate] at hmem
    exact hp ((mem_toggleForce_other _ (by decide)).mp
      ((mem_toggleForce_other _ (by decide)).mp hmem))
  have hall2 := mem_updateFirst_preserves (stripVisible st.panels) fromId _ hpres hall1
  have hq : getById (updateFirst (stripVisible st.panels) fromId
      (selClassUpdate (jsStrLe sp.index tp.index) (jsStrLe tp.index sp.index))) toId =
      some { tp with classes := removeClass "visible" tp.classes } := by
    rw [getById_updateFirst_other (stripVisible st.panels) fromId toId
      (selClassUpdate (jsStrLe sp.index tp.index) (jsStrLe tp.index sp.index)) (Ne.symm hne) (fun p => rfl),
      getById_stripVisible, htp]
    rfl
  apply countVisible_updateFirst hall2 hq
  simp only [tgtClassUpdate]
  refine (mem_toggleForce_other _ (by decide)).mpr ?_
  refine (mem_toggleForce_other _ (by decide)).mpr ?_
  apply mem_toggleClass_of_not_mem
  simp [mem_removeClass]

/-- C2 witness: the transition `home → settings` on `demoState` ends with
exactly one visible panel. -/
theorem C2_witness :
    countVisible (togglePanelVisibility demoState "home" "settings").fst.panels = 1 :=
  C2_exactly_one_visible demoState "home" "settings" homePanel settingsPanel
    (by decide) (by decide) (by decide)

/-- C5 counterexample: the claim derives direction classes from comparing
the panels' order indices, `previous` on the lower-index side; the code
compares the `dataset.index` STRINGS, and `"2" <= "10"` is false in JS
although 2 < 10, so transitioning from index 2 to index 10 sets `next` and
removes `previous` on BOTH panels even though the source index is
numerically lower. -/
theorem C5_counterexample :
    ((2 : Nat) < 10)
    ∧ jsStrLe "2" "10" = false
    ∧ "previous" ∉ classesOf (togglePanelVisibility wideState "two" "ten").fst.panels "two"
    ∧ "next" ∈ classesOf (togglePanelVisibility wideState "two" "ten").fst.panels "two"
    ∧ "previous" ∉ classesOf (togglePanelVisibility wideState "two" "ten").fst.panels "ten"
    ∧ "next" ∈ classesOf (togglePanelVisibility wideState "two" "ten").fst.panels "ten" := by
  refine ⟨by norm_num, by decide, by decide, by decide, by decide, by decide⟩

/-- C5 (amended): direction classes are computed from the JS STRING
comparison of the two panels' `dataset.index` values (lexicographic on code
units, agreeing with numeric order only while both indices have equally
many digits) and applied identically to both panels:
afterwards each carries `previous` exactly when `sp.index <= tp.index` and
`next` exactly when `sp.index >= tp.index` (JS string comparison); the
target additionally carries `visible`, and the `panel` query parameter
pushed to history is the target id. -/
theorem C5_direction_classes (st : PCState) (fromId toId : String) (sp tp : Panel)
    (hne : fromId ≠ toId) (hsp : getById st.panels fromId = some sp)
    (htp : getById st.panels toId = some tp) :
    (("previous" ∈ classesOf (togglePanelVisibility st fromId toId).fst.panels fromId)
        ↔ jsStrLe sp.index tp.index = true)
    ∧ (("next" ∈ classesOf (togglePanelVisibility st fromId toId).fst.panels fromId)
        ↔ jsStrLe tp.index sp.index = true)
    ∧ (("previous" ∈ classesOf (togglePanelVisibility st fromId toId).fst.panels toId)
        ↔ jsStrLe sp.index tp.index = true)
    ∧ (("next" ∈ classesOf (togglePanelVisibility st fromId toId).fst.panels toId)
        ↔ jsStrLe tp.index sp.index = true)
    ∧ "visible" ∈ classesOf (togglePanelVisibility st fromId toId).fst.panels toId
    ∧ (togglePanelVisibility st fromId toId).fst.history = st.history ++ [toId] := by
  rw [togglePanelVisibility_eq st fromId toId sp tp hne hsp htp]
  unfold mainState
  dsimp only
  have hfrom : getById (updateFirst (updateFirst (stripVisible st.panels) fromId
      (selClassUpdate (jsStrLe sp.index tp.index) (jsStrLe tp.index sp.index))) toId
      (tgtClassUpdate (jsStrLe sp.index tp.index) (jsStrLe tp.index sp.index))) fromId =
      some (selClassUpdate (jsStrLe sp.index tp.index) (jsStrLe tp.index sp.index)
        { sp with classes := removeClass "visible" sp.classes }) := by
    rw [getById_updateFirst_other
      (updateFirst (stripVisible st.panels) fromId (selClassUpdate (jsStrLe sp.index tp.index) (jsStrLe tp.index sp.index))) toId fromId
      (tgtClassUpdate (jsStrLe sp.index tp.index) (jsStrLe tp.index sp.index)) hne (fun p => rfl),
      getById_updateFirst_self (stripVisible st.panels) fromId (selClassUpdate (jsStrLe sp.index tp.index) (jsStrLe tp.index sp.index)) (fun p => rfl),
      getById_stripVisible, hsp]
    rfl
  have hto : getById (updateFirst (updateFirst (stripVisible st.panels) fromId
      (selClassUpdate (jsStrLe sp.index tp.index) (jsStrLe tp.index sp.index))) toId
      (tgtClassUpdate (jsStrLe sp.index tp.index) (jsStrLe tp.index sp.index))) toId =
      some (tgtClassUpdate (jsStrLe sp.index tp.index) (jsStrLe tp.index sp.index)
        { tp with classes := removeClass "visible" tp.classes }) := by
    rw [getById_updateFirst_self
      (updateFirst (stripVisible st.panels) fromId (selClassUpdate (jsStrLe sp.index tp.index) (jsStrLe tp.index sp.index))) toId
      (tgtClassUpdate (jsStrLe sp.index tp.index) (jsStrLe tp.index sp.index)) (fun p => rfl),
      getById_updateFirst_other (stripVisible st.panels) fromId toId
      (selClassUpdate (jsStrLe sp.index tp.index) (jsStrLe tp.index sp.index)) (Ne.symm hne) (fun p => rfl),
      getById_stripVisible, htp]
    rfl
  refine ⟨?_, ?_, ?_, ?_, ?_, rfl⟩
  · rw [classesOf, hfrom]
    simp only [Option.map_some', Option.getD_some, selClassUpdate]
    rw [mem_toggleForce_other _ (by decide), mem_toggleForce_self]
  · rw [classesOf, hfrom]
    simp only [Option.map_some', Option.getD_some, selClassUpdate]
    rw [mem_toggleForce_self]
  · rw [classesOf, hto]
    simp only [Option.map_some', Option.getD_some, tgtClassUpdate]
    rw [mem_toggleForce_other _ (by decide), mem_toggleForce_self]
  · rw [classesOf, hto]
    simp only [Option.map_some', Option.getD_some, tgtClassUpdate]
    rw [mem_toggleForce_self]
  · rw [classesOf, hto]
    simp only [Option.map_some', Option.getD_some, tgtClassUpdate]
    refine (mem_toggleForce_other _ (by decide)).mpr ?_
    refine (mem_toggleForce_other _ (by decide)).mpr ?_
    apply mem_toggleClass_of_not_mem
    simp [mem_removeClass]

/-- C5 witness: transitioning from `home` (index 0) to `settings` (index 2)
on `demoState` sets `previous` on `home`, sets `previous` (and removes
`next`) on `settings`, makes `settings` visible, and pushes
`panel=settings`. -/
theorem C5_witness :
    "previous" ∈ classesOf (togglePanelVisibility demoState "home" "settings").fst.panels "home"
    ∧ "previous" ∈ classesOf (togglePanelVisibility demoState "home" "settings").fst.panels "settings"
    ∧ "next" ∉ classesOf (togglePanelVisibility demoState "home" "settings").fst.panels "settings"
    ∧ "visible" ∈ classesOf (togglePanelVisibility demoState "home" "settings").fst.panels "settings"
    ∧ (togglePanelVisibility demoState "home" "settings").fst.history = ["settings"] := by
  have h := C5_direction_classes demoState "home" "settings" homePanel settingsPanel
    (by decide) (by decide) (by decide)
  exact ⟨h.1.mpr (by decide), h.2.2.1.mpr (by decide),
    fun hm => absurd (h.2.2.2.1.mp hm) (by decide),
    h.2.2.2.2.1, by simpa using h.2.2.2.2.2⟩


/-- C7 counterexample: the claim says a resolving, not-yet-loaded target has
`init()` called exactly once with `isLoaded` set true before `show()`, so
later transitions never call `init()` again; on `faultyState` the uncaught
throwing `init` leaves `isLoaded` false (`throwingLibrary` unchanged in the
window), `show` is skipped, and a second transition to the same target
calls `init` again. -/
theorem C7_counterexample :
    (togglePanelVisibility faultyState "home" "lib").snd.snd =
        [LifeEvent.initCall "Store" (some "Library")]
    ∧ (togglePanelVisibility faultyState "home" "lib").snd.fst = TResult.threw
    ∧ resolvedCtrl (togglePanelVisibility faultyState "home" "lib").fst.win "Store.Library" =
        some throwingLibrary
    ∧ throwingLibrary.isLoaded = false
    ∧ (togglePanelVisibility (togglePanelVisibility faultyState "home" "lib").fst
        "home" "lib").snd.snd = [LifeEvent.initCall "Store" (some "Library")] := by
  refine ⟨by decide, by decide, by decide, by decide, by decide⟩

/-- C7 (amended): on a transition whose target declares controller path
`code`, (a) if the path does not resolve, the trace is exactly the source
hide block's trace — zero `init`/`show` calls for the target — and the call
completes; (b) if it resolves to a not-yet-loaded controller (whose `init`
does not throw), `init` runs exactly once, immediately followed by `show`,
and the controller is marked `isLoaded` in the resulting window; (c) if it
resolves to a controller already marked `isLoaded`, no `init` runs, only
`show`; (d) if it resolves to a fresh controller whose `init` throws, the
single `init` call is the last event, the exception propagates, and the
controller is NOT marked loaded — the next transition to the same target
will call `init` again. -/
theorem C7_lifecycle_dispatch (st : PCState) (fromId toId : String) (sp tp : Panel)
    (code : String) (hne : fromId ≠ toId) (hsp : getById st.panels fromId = some sp)
    (htp : getById st.panels toId = some tp)
    (hpc : tp.pageObject = some code) (hcne : code ≠ "") :
    (resolvedCtrl st.win code = none →
        (togglePanelVisibility st fromId toId).snd.snd = runHide st.win sp.pageObject
        ∧ (togglePanelVisibility st fromId toId).snd.fst = TResult.completed
        ∧ (togglePanelVisibility st fromId toId).snd.snd.filter LifeEvent.isInit = []
        ∧ (togglePanelVisibility st fromId toId).snd.snd.filter LifeEvent.isShow = [])
    ∧ (∀ c : Ctrl, resolvedCtrl st.win code = some c → c.isLoaded = false →
        c.initThrows = false →
        ∃ b o, (togglePanelVisibility st fromId toId).snd.snd =
            runHide st.win sp.pageObject ++ [LifeEvent.initCall b o, LifeEvent.showCall b o]
          ∧ ((togglePanelVisibility st fromId toId).snd.snd.filter LifeEvent.isInit).length = 1
          ∧ resolvedCtrl (togglePanelVisibility st fromId toId).fst.win code =
              some { c with isLoaded := true })
    ∧ (∀ c : Ctrl, resolvedCtrl st.win code = some c → c.isLoaded = true →
        ∃ b o, (togglePanelVisibility st fromId toId).snd.snd =
            runHide st.win sp.pageObject ++ [LifeEvent.showCall b o]
          ∧ (togglePanelVisibility st fromId toId).snd.snd.filter LifeEvent.isInit = [])
    ∧ (∀ c : Ctrl, resolvedCtrl st.win code = some c → c.isLoaded = false →
        c.initThrows = true →
        ∃ b o, (togglePanelVisibility st fromId toId).snd.snd =
            runHide st.win sp.pageObject ++ [LifeEvent.initCall b o]
          ∧ (togglePanelVisibility st fromId toId).snd.fst = TResult.threw
          ∧ resolvedCtrl (togglePanelVisibility st fromId toId).fst.win code = some c) := by
  rw [togglePanelVisibility_eq st fromId toId sp tp hne hsp htp]
  dsimp only
  rw [hpc]
  refine ⟨?_, ?_, ?_, ?_⟩
  · intro hr
    rw [runTarget_unresolved st.win code hcne hr]
    refine ⟨by simp, by simp, ?_, ?_⟩
    · simp [List.filter_append, runHide_filter_isInit]
    · simp [List.filter_append, runHide_filter_isShow]
  · intro c hr hl hi
    obtain ⟨b, o, h1, h2, h3⟩ := runTarget_resolved_fresh st.win code c hcne hr hl hi
    refine ⟨b, o, ?_, ?_, ?_⟩
    · rw [h1]
    · rw [h1]
      simp [List.filter_append, runHide_filter_isInit, LifeEvent.isInit]
    · have hwin : (mainState st fromId toId sp tp).win = (runTarget st.win (some code)).fst := by
        unfold mainState
        dsimp only
        rw [hpc]
      rw [hwin]
      exact h3
  · intro c hr hl
    obtain ⟨b, o, heq2⟩ := runTarget_resolved_loaded st.win code c hcne hr hl
    refine ⟨b, o, ?_, ?_⟩
    · rw [heq2]
    · rw [heq2]
      simp [List.filter_append, runHide_filter_isInit, LifeEvent.isInit]
  · intro c hr hl hi
    obtain ⟨b, o, heq3⟩ := runTarget_init_throws st.win code c hcne hr hl hi
    refine ⟨b, o, ?_, ?_, ?_⟩
    · rw [heq3]
    · rw [heq3]
      rfl
    · have hwin : (mainState st fromId toId sp tp).win = (runTarget st.win (some code)).fst := by
        unfold mainState
        dsimp only
        rw [hpc]
      rw [hwin, heq3]
      exact hr

/-- C7 witness: on `goodState` (resolvable fresh `Store.Library`) the
transition `home → lib` runs `init` then `show` once and marks the
controller loaded. -/
theorem C7_witness :
    ∃ b o, (togglePanelVisibility goodState "home" "lib").snd.snd =
        runHide goodState.win homePanel.pageObject ++
          [LifeEvent.initCall b o, LifeEvent.showCall b o]
      ∧ ((togglePanelVisibility goodState "home" "lib").snd.snd.filter LifeEvent.isInit).length = 1
      ∧ resolvedCtrl (togglePanelVisibility goodState "home" "lib").fst.win "Store.Library" =
          some { goodLibrary with isLoaded := true } :=
  (C7_lifecycle_dispatch goodState "home" "lib" homePanel libPanel "Store.Library"
    (by decide) (by decide) (by decide) (by decide) (by decide)).2.1 goodLibrary
    (by decide) (by decide) (by decide)

/-- C8 counterexample: the claim says every lifecycle error is caught; on
`faultyState` the target's `init` throws and the exception escapes the
Transition call (`init` is the one lifecycle call outside any try/catch). -/
theorem C8_counterexample :
    (togglePanelVisibility faultyState "home" "lib").snd.fst = TResult.threw
    ∧ (togglePanelVisibility faultyState "home" "lib").snd.snd =
        [LifeEvent.initCall "Store" (some "Library")] := by
  refine ⟨by decide, by decide⟩

/-- C8 (amended): errors thrown by `hide()` and `show()` are caught and
discarded (no retry), but an error thrown by `init()` on a fresh resolved
target controller propagates: a main-branch transition throws exactly when
such an `init` throws. -/
theorem C8_only_init_propagates (st : PCState) (fromId toId : String) (sp tp : Panel)
    (hne : fromId ≠ toId) (hsp : getById st.panels fromId = some sp)
    (htp : getById st.panels toId = some tp) :
    ((togglePanelVisibility st fromId toId).snd.fst = TResult.threw
      ↔ initThrowsOn st.win tp.pageObject = true) := by
  rw [togglePanelVisibility_eq st fromId toId sp tp hne hsp htp]
  dsimp only
  rw [runTarget_throw_char]
  cases h : initThrowsOn st.win tp.pageObject
  · simp [h]
  · simp [h]

/-- C8 witness: on `swallowState` the outgoing `Store.Library.hide()` throws
yet the transition completes — the error is swallowed while the hide call
did happen. -/
theorem C8_witness :
    ((togglePanelVisibility swallowState "lib" "home").snd.fst = TResult.threw
      ↔ initThrowsOn swallowState.win homePanel.pageObject = true)
    ∧ (togglePanelVisibility swallowState "lib" "home").snd.fst = TResult.completed
    ∧ (togglePanelVisibility swallowState "lib" "home").snd.snd =
        [LifeEvent.hideCall "Store" (some "Library")] :=
  ⟨C8_only_init_propagates swallowState "lib" "home" libPanel homePanel
    (by decide) (by decide) (by decide), by decide, by decide⟩

/-- C9: while `isKeyDown` is set, every keydown (Escape included) is a
no-op; concretely, from `escState` (`current="settings"`,
`previous="home"`) the first Escape makes `home` visible again, sets the
guard, a second Escape before key-up changes nothing, and key-up clears the
guard. -/
theorem C9_escape_guard (st : PCState) (key : String) (h : st.isKeyDown = true) :
    handleKeyDown st key = (st, [])
    ∧ (handleKeyDown escState "Escape").fst.isKeyDown = true
    ∧ classesOf (handleKeyDown escState "Escape").fst.panels "home" = ["visible", "next"]
    ∧ classesOf (handleKeyDown escState "Escape").fst.panels "settings" = ["next"]
    ∧ (handleKeyDown escState "Escape").fst.previousPanelId = "settings"
    ∧ (handleKeyDown escState "Escape").fst.currentPanelId = "home"
    ∧ handleKeyDown (handleKeyDown escState "Escape").fst "Escape" =
        ((handleKeyDown escState "Escape").fst, [])
    ∧ (handleKeyUp (handleKeyDown escState "Escape").fst).isKeyDown = false := by
  refine ⟨?_, by decide, by decide, by decide, by decide, by decide, by decide, by decide⟩
  unfold handleKeyDown
  rw [if_pos h]

/-- C9 witness: the second Escape while the key is held (guard set) is a
no-op. -/
theorem C9_witness :
    handleKeyDown (handleKeyDown escState "Escape").fst "Escape" =
      ((handleKeyDown escState "Escape").fst, []) :=
  (C9_escape_guard (handleKeyDown escState "Escape").fst "Escape" (by decide)).1

end PageController
